import Mathlib

/-!
Shallow embedding of the libcamera tuning-control core under verification:

* `src/ipa/rkisp1/algorithms/blc.cpp` — the RkISP1 black level correction
  algorithm (`BlackLevelCorrection::init` and `BlackLevelCorrection::prepare`).
* `src/ipa/rpi/cam_helper/cam_helper_evdmoom1.cpp` — the Raspberry Pi camera
  helper for the Innodisk EVDM-OOM1 module (AP1302 ISP, AR1335 sensor) and its
  registration under the identifier "evdmoom1".

C++ `int16_t` values are embedded as `Int` (no arithmetic in the code can
overflow 16 bits: values are only copied and right-shifted), `uint32_t` frame
numbers and flag words as `Nat`, `std::optional` as `Option`, and `double`
as `ℚ`.  Log output is embedded as an explicit list of emitted diagnostics.
-/

namespace Rkisp1

/-- The tuning-data lookups performed by `BlackLevelCorrection::init`:
`tuningData["R"].get<int16_t>()` and likewise for "Gr", "Gb", "B".  The
`YamlObject` itself is an external collaborator; this records the result of
the four optional typed lookups. -/
structure TuningData where
  R : Option Int
  Gr : Option Int
  Gb : Option Int
  B : Option Int
  deriving DecidableEq

/-- The diagnostics the algorithm can emit on its log channel
(`LOG(RkISP1Blc, Warning)` calls in `init`). -/
inductive LogMessage where
  /-- "No black levels provided by camera sensor helper, please fix" -/
  | noBlackLevels
  /-- "Deprecated: black levels overwritten by tuning file" -/
  | deprecatedOverride
  deriving DecidableEq

/-- The member state of a `BlackLevelCorrection` instance (declared in
`blc.h`): the `bool tuningParameters_` flag and the four `int16_t` black
levels.  `none` models the indeterminate value an `int16_t` member holds
before `init` has stored into it; the constructor only sets
`tuningParameters_(false)`. -/
structure BLCState where
  tuningParameters_ : Bool
  blackLevelRed_ : Option Int
  blackLevelGreenR_ : Option Int
  blackLevelGreenB_ : Option Int
  blackLevelBlue_ : Option Int
  deriving DecidableEq

/-- `BlackLevelCorrection::BlackLevelCorrection() : tuningParameters_(false)`. -/
def BLCState.construct : BLCState :=
  { tuningParameters_ := false
    blackLevelRed_ := none
    blackLevelGreenR_ := none
    blackLevelGreenB_ := none
    blackLevelBlue_ := none }

/-- `BlackLevelCorrection::init`.  `blackLevel` is the result of
`context.camHelper->blackLevel()` (an `std::optional<int16_t>` supplied by the
sensor helper).  Returns the `int` status, the list of emitted diagnostics,
and the updated member state.  Mirrors blc.cpp lines 46-100: the three-way
branch on the sensor black level and `tuningHasLevels`, then
`tuningParameters_ = true` and `return 0`. -/
def init (blackLevel : Option Int) (tuningData : TuningData) (s : BLCState) :
    Int × List LogMessage × BLCState :=
  let levelRed := tuningData.R
  let levelGreenR := tuningData.Gr
  let levelGreenB := tuningData.Gb
  let levelBlue := tuningData.B
  let tuningHasLevels :=
    levelRed.isSome && levelGreenR.isSome && levelGreenB.isSome && levelBlue.isSome
  if blackLevel.isNone then
    (0, [LogMessage.noBlackLevels],
      { s with
        tuningParameters_ := true
        blackLevelRed_ := some (levelRed.getD 4096)
        blackLevelGreenR_ := some (levelGreenR.getD 4096)
        blackLevelGreenB_ := some (levelGreenB.getD 4096)
        blackLevelBlue_ := some (levelBlue.getD 4096) })
  else if tuningHasLevels then
    (0, [LogMessage.deprecatedOverride],
      { s with
        tuningParameters_ := true
        blackLevelRed_ := levelRed
        blackLevelGreenR_ := levelGreenR
        blackLevelGreenB_ := levelGreenB
        blackLevelBlue_ := levelBlue })
  else
    (0, [],
      { s with
        tuningParameters_ := true
        blackLevelRed_ := blackLevel
        blackLevelGreenR_ := blackLevel
        blackLevelGreenB_ := blackLevel
        blackLevelBlue_ := blackLevel })

/-- `RKISP1_CIF_ISP_MODULE_BLS`, the bit naming the black-level-subtraction
block in the module flag words.  Its value, `1 << 1`, comes from the kernel
UAPI header `rkisp1-config.h`, which is an external boundary of the
repository (the spec treats the parameter structure as an opaque,
bit-exact boundary). -/
def RKISP1_CIF_ISP_MODULE_BLS : Nat := 1 <<< 1

/-- `struct rkisp1_cif_isp_bls_fixed_val`: the four per-channel fixed
black-level register fields (`__s16` each). -/
structure BlsFixedVal where
  r : Int
  gr : Int
  gb : Int
  b : Int
  deriving DecidableEq

/-- `struct rkisp1_cif_isp_bls_config`.  The window and sample fields are
never touched by this algorithm and are embedded opaquely. -/
structure BlsConfig where
  enable_auto : Nat
  en_windows : Nat
  bls_window1 : Nat
  bls_window2 : Nat
  bls_samples : Nat
  fixed_val : BlsFixedVal
  deriving DecidableEq

/-- The `others` sub-structure of `rkisp1_params_cfg`: the BLS config plus
all the sibling sub-configs this algorithm never touches, embedded opaquely
as `rest`. -/
structure OthersConfig where
  bls_config : BlsConfig
  rest : Nat
  deriving DecidableEq

/-- `struct rkisp1_params_cfg`: the three module flag words (`__u32`), the
measurement config (never touched here, opaque) and the `others` configs. -/
structure rkisp1_params_cfg where
  module_en_update : Nat
  module_ens : Nat
  module_cfg_update : Nat
  meas : Nat
  others : OthersConfig
  deriving DecidableEq

/-- `BlackLevelCorrection::prepare` (blc.cpp lines 105-126).  `params` is
mutated in place in C++; here the updated structure is returned.  The
right shift `>> 4` on an `int16_t` promotes to `int` and shifts
arithmetically, which `Int.shiftRight` matches exactly.  The `getD 0`
reads model loads of the `int16_t` members; they are reached only when
`tuningParameters_` is set, in which case `init` has stored all four. -/
def prepare (frame : Nat) (s : BLCState) (params : rkisp1_params_cfg) :
    rkisp1_params_cfg :=
  if frame > 0 then params
  else if !s.tuningParameters_ then params
  else
    { params with
      module_en_update := params.module_en_update ||| RKISP1_CIF_ISP_MODULE_BLS
      module_ens := params.module_ens ||| RKISP1_CIF_ISP_MODULE_BLS
      module_cfg_update := params.module_cfg_update ||| RKISP1_CIF_ISP_MODULE_BLS
      others := { params.others with
        bls_config := { params.others.bls_config with
          enable_auto := 0
          fixed_val :=
            { r := Int.shiftRight (s.blackLevelRed_.getD 0) 4
              gr := Int.shiftRight (s.blackLevelGreenR_.getD 0) 4
              gb := Int.shiftRight (s.blackLevelGreenB_.getD 0) 4
              b := Int.shiftRight (s.blackLevelBlue_.getD 0) 4 } } } }

/-- A state as `init` leaves it when every channel resolves to 4096. -/
def activeState4096 : BLCState :=
  { tuningParameters_ := true
    blackLevelRed_ := some 4096
    blackLevelGreenR_ := some 4096
    blackLevelGreenB_ := some 4096
    blackLevelBlue_ := some 4096 }

/-- A concrete parameter buffer with auto mode on, module bit 2 set in each
flag word, and nonzero contents everywhere, used to exercise `prepare`. -/
def sampleParams : rkisp1_params_cfg :=
  { module_en_update := 4
    module_ens := 4
    module_cfg_update := 4
    meas := 9
    others :=
      { bls_config :=
          { enable_auto := 1
            en_windows := 5
            bls_window1 := 6
            bls_window2 := 7
            bls_samples := 8
            fixed_val := { r := 1, gr := 2, gb := 3, b := 5 } }
        rest := 11 } }

/-- Claim C1: with no sensor-supplied black level, init resolves each channel
to its tuning value when present and to 4096 when absent, channel by channel;
in particular all four levels are 4096 when no tuning field is present, and
equal the tuning fields exactly when all four are present. -/
theorem init_fallback_channelwise :
    (∀ (td : TuningData) (s : BLCState),
      (init none td s).2.2.blackLevelRed_ = some (td.R.getD 4096) ∧
      (init none td s).2.2.blackLevelGreenR_ = some (td.Gr.getD 4096) ∧
      (init none td s).2.2.blackLevelGreenB_ = some (td.Gb.getD 4096) ∧
      (init none td s).2.2.blackLevelBlue_ = some (td.B.getD 4096)) ∧
    (∀ s : BLCState,
      (init none { R := none, Gr := none, Gb := none, B := none } s).2.2.blackLevelRed_ = some 4096 ∧
      (init none { R := none, Gr := none, Gb := none, B := none } s).2.2.blackLevelGreenR_ = some 4096 ∧
      (init none { R := none, Gr := none, Gb := none, B := none } s).2.2.blackLevelGreenB_ = some 4096 ∧
      (init none { R := none, Gr := none, Gb := none, B := none } s).2.2.blackLevelBlue_ = some 4096) ∧
    (∀ (r gr gb b : Int) (s : BLCState),
      (init none { R := some r, Gr := some gr, Gb := some gb, B := some b } s).2.2.blackLevelRed_ = some r ∧
      (init none { R := some r, Gr := some gr, Gb := some gb, B := some b } s).2.2.blackLevelGreenR_ = some gr ∧
      (init none { R := some r, Gr := some gr, Gb := some gb, B := some b } s).2.2.blackLevelGreenB_ = some gb ∧
      (init none { R := some r, Gr := some gr, Gb := some gb, B := some b } s).2.2.blackLevelBlue_ = some b) := by
  refine ⟨?_, ?_, ?_⟩ <;> intros <;> simp [init]

/-- Claim C2: with a sensor-supplied black level and all four tuning values
present, init stores the four tuning values (tuning takes precedence over the
sensor value) and emits the deprecation diagnostic. -/
theorem init_tuning_overrides_sensor (bl r gr gb b : Int) (s : BLCState) :
    init (some bl) { R := some r, Gr := some gr, Gb := some gb, B := some b } s =
      (0, [LogMessage.deprecatedOverride],
        { s with
          tuningParameters_ := true
          blackLevelRed_ := some r
          blackLevelGreenR_ := some gr
          blackLevelGreenB_ := some gb
          blackLevelBlue_ := some b }) := by
  simp [init]

/-- Claim C3: with a sensor-supplied black level and fewer than all four
tuning values present, init stores the single sensor scalar into every
channel; incomplete tuning data never overrides any channel. -/
theorem init_sensor_scalar_when_incomplete (bl : Int) (td : TuningData) (s : BLCState)
    (h : (td.R.isSome && td.Gr.isSome && td.Gb.isSome && td.B.isSome) = false) :
    (init (some bl) td s).2.2.blackLevelRed_ = some bl ∧
    (init (some bl) td s).2.2.blackLevelGreenR_ = some bl ∧
    (init (some bl) td s).2.2.blackLevelGreenB_ = some bl ∧
    (init (some bl) td s).2.2.blackLevelBlue_ = some bl := by
  simp [init, h]

/-- Witness for C3 at a concrete input: sensor level 100, three of four
tuning keys present. -/
theorem init_sensor_scalar_when_incomplete_witness :
    (init (some 100) { R := none, Gr := some 1, Gb := some 2, B := some 3 }
        BLCState.construct).2.2.blackLevelRed_ = some 100 ∧
    (init (some 100) { R := none, Gr := some 1, Gb := some 2, B := some 3 }
        BLCState.construct).2.2.blackLevelGreenR_ = some 100 ∧
    (init (some 100) { R := none, Gr := some 1, Gb := some 2, B := some 3 }
        BLCState.construct).2.2.blackLevelGreenB_ = some 100 ∧
    (init (some 100) { R := none, Gr := some 1, Gb := some 2, B := some 3 }
        BLCState.construct).2.2.blackLevelBlue_ = some 100 :=
  init_sensor_scalar_when_incomplete 100
    { R := none, Gr := some 1, Gb := some 2, B := some 3 } BLCState.construct rfl

/-- Claim C6: for every input, init returns status 0, sets the active flag,
and leaves all four channel black levels holding a defined value. -/
theorem init_total_success (bl : Option Int) (td : TuningData) (s : BLCState) :
    (init bl td s).1 = 0 ∧
    (init bl td s).2.2.tuningParameters_ = true ∧
    (init bl td s).2.2.blackLevelRed_.isSome = true ∧
    (init bl td s).2.2.blackLevelGreenR_.isSome = true ∧
    (init bl td s).2.2.blackLevelGreenB_.isSome = true ∧
    (init bl td s).2.2.blackLevelBlue_.isSome = true := by
  rcases bl with _ | bl <;>
    rcases td with ⟨_ | r, _ | gr, _ | gb, _ | b⟩ <;>
      simp [init]

/-- Claim C5: prepare leaves the parameter buffer unchanged for every
frame > 0 regardless of activation, and at frame 0 whenever the active flag
was never set. -/
theorem prepare_noop (frame : Nat) (s : BLCState) (params : rkisp1_params_cfg)
    (h : frame > 0 ∨ s.tuningParameters_ = false) :
    prepare frame s params = params := by
  rcases h with h | h <;> simp [prepare, h]

/-- Witness for C5: frame 1 with an active state, and frame 0 with a freshly
constructed (inactive) state. -/
theorem prepare_noop_witness :
    prepare 1 activeState4096 sampleParams = sampleParams ∧
    prepare 0 BLCState.construct sampleParams = sampleParams :=
  ⟨prepare_noop 1 activeState4096 sampleParams (Or.inl (by decide)),
   prepare_noop 0 BLCState.construct sampleParams (Or.inr rfl)⟩

/-- Claim C4: at frame 0 with the algorithm active, prepare writes each
stored channel level shifted right by 4 bits into the per-channel fixed
values, and sets the BLS bit in the module-enable, module-enable-update and
module-config-update words. -/
theorem prepare_frame0_active (s : BLCState) (params : rkisp1_params_cfg)
    (r gr gb b : Int)
    (hact : s.tuningParameters_ = true)
    (hr : s.blackLevelRed_ = some r)
    (hgr : s.blackLevelGreenR_ = some gr)
    (hgb : s.blackLevelGreenB_ = some gb)
    (hb : s.blackLevelBlue_ = some b) :
    (prepare 0 s params).others.bls_config.fixed_val =
      { r := Int.shiftRight r 4
        gr := Int.shiftRight gr 4
        gb := Int.shiftRight gb 4
        b := Int.shiftRight b 4 } ∧
    Nat.testBit (prepare 0 s params).module_ens 1 = true ∧
    Nat.testBit (prepare 0 s params).module_en_update 1 = true ∧
    Nat.testBit (prepare 0 s params).module_cfg_update 1 = true := by
  have hbit : Nat.testBit RKISP1_CIF_ISP_MODULE_BLS 1 = true := by decide
  refine ⟨?_, ?_, ?_, ?_⟩ <;>
    simp [prepare, hact, hr, hgr, hgb, hb, Nat.testBit_lor, hbit]

/-- Witness for C4: levels 4096 on every channel yield fixed values 256 and
the three BLS flag bits set. -/
theorem prepare_frame0_active_witness :
    (prepare 0 activeState4096 sampleParams).others.bls_config.fixed_val =
      { r := 256, gr := 256, gb := 256, b := 256 } ∧
    Nat.testBit (prepare 0 activeState4096 sampleParams).module_ens 1 = true ∧
    Nat.testBit (prepare 0 activeState4096 sampleParams).module_en_update 1 = true ∧
    Nat.testBit (prepare 0 activeState4096 sampleParams).module_cfg_update 1 = true := by
  have h := prepare_frame0_active activeState4096 sampleParams
    4096 4096 4096 4096 rfl rfl rfl rfl rfl
  exact ⟨by rw [h.1]; decide, h.2.1, h.2.2.1, h.2.2.2⟩

/-- Claim C9: when prepare acts, the three module flag words are updated with
bitwise OR, so every bit already set stays set, and every field other than
the BLS config and the flag words is unchanged (within the BLS config, the
window and sample fields are also unchanged). -/
theorem prepare_preserves_unrelated (s : BLCState) (params : rkisp1_params_cfg)
    (hact : s.tuningParameters_ = true) :
    (prepare 0 s params).meas = params.meas ∧
    (prepare 0 s params).others.rest = params.others.rest ∧
    (prepare 0 s params).others.bls_config.en_windows = params.others.bls_config.en_windows ∧
    (prepare 0 s params).others.bls_config.bls_window1 = params.others.bls_config.bls_window1 ∧
    (prepare 0 s params).others.bls_config.bls_window2 = params.others.bls_config.bls_window2 ∧
    (prepare 0 s params).others.bls_config.bls_samples = params.others.bls_config.bls_samples ∧
    (∀ i : Nat, Nat.testBit params.module_ens i = true →
      Nat.testBit (prepare 0 s params).module_ens i = true) ∧
    (∀ i : Nat, Nat.testBit params.module_en_update i = true →
      Nat.testBit (prepare 0 s params).module_en_update i = true) ∧
    (∀ i : Nat, Nat.testBit params.module_cfg_update i = true →
      Nat.testBit (prepare 0 s params).module_cfg_update i = true) := by
  refine ⟨?_, ?_, ?_, ?_, ?_, ?_, ?_, ?_, ?_⟩ <;>
    simp [prepare, hact] <;> intro i h <;> exact Or.inl h

/-- Witness for C9: with bit 2 set in each flag word beforehand, it is still
set after prepare acts, and the measurement config is untouched. -/
theorem prepare_preserves_unrelated_witness :
    (prepare 0 activeState4096 sampleParams).meas = sampleParams.meas ∧
    Nat.testBit (prepare 0 activeState4096 sampleParams).module_ens 2 = true ∧
    Nat.testBit (prepare 0 activeState4096 sampleParams).module_en_update 2 = true ∧
    Nat.testBit (prepare 0 activeState4096 sampleParams).module_cfg_update 2 = true := by
  have h := prepare_preserves_unrelated activeState4096 sampleParams rfl
  exact ⟨h.1,
    h.2.2.2.2.2.2.1 2 (by decide),
    h.2.2.2.2.2.2.2.1 2 (by decide),
    h.2.2.2.2.2.2.2.2 2 (by decide)⟩

/-- Claim C10: when prepare acts it writes 0 to the automatic black level
enable field, disabling the hardware's automatic mode whenever the fixed
per-channel values are written. -/
theorem prepare_disables_auto (s : BLCState) (params : rkisp1_params_cfg)
    (hact : s.tuningParameters_ = true) :
    (prepare 0 s params).others.bls_config.enable_auto = 0 := by
  simp [prepare, hact]

/-- Witness for C10: a buffer that starts with auto mode on ends with it off. -/
theorem prepare_disables_auto_witness :
    (prepare 0 activeState4096 sampleParams).others.bls_config.enable_auto = 0 :=
  prepare_disables_auto activeState4096 sampleParams rfl

end Rkisp1

namespace RPiController

namespace CamHelperEvdmOOM1

/-- `CamHelperEvdmOOM1::gainCode`: `static_cast<uint32_t>(gain * 16.0)`.
The cast truncates toward zero; for the nonnegative gains on which the cast
is defined this is the floor.  `double` is embedded as `ℚ`. -/
def gainCode (gain : ℚ) : ℕ := (⌊gain * 16⌋).toNat

/-- `CamHelperEvdmOOM1::gain`: `static_cast<double>(gainCode) / 16.0`. -/
def gain (gainCode : ℕ) : ℚ := (gainCode : ℚ) / 16

/-- `CamHelperEvdmOOM1::getDelays`: writes 2 into each of the four output
references (exposure, gain, vblank, hblank), embedded as a returned tuple. -/
def getDelays : Int × Int × Int × Int := (2, 2, 2, 2)

/-- `CamHelperEvdmOOM1::sensorEmbeddedDataPresent`: returns false. -/
def sensorEmbeddedDataPresent : Bool := false

/-- `CamHelperEvdmOOM1::hideFramesStartup`: returns 2. -/
def hideFramesStartup : ℕ := 2

/-- `CamHelperEvdmOOM1::hideFramesModeSwitch`: returns 2. -/
def hideFramesModeSwitch : ℕ := 2

/-- `CamHelperEvdmOOM1::mistrustFramesStartup`: returns 2. -/
def mistrustFramesStartup : ℕ := 2

/-- `CamHelperEvdmOOM1::mistrustFramesModeSwitch`: returns 2. -/
def mistrustFramesModeSwitch : ℕ := 2

end CamHelperEvdmOOM1

/-- The observable interface of a registered camera helper: the per-model
conversions and constants the claims are about. -/
structure CamHelperModel where
  gainCode : ℚ → ℕ
  gain : ℕ → ℚ
  getDelays : Int × Int × Int × Int
  sensorEmbeddedDataPresent : Bool
  hideFramesStartup : ℕ
  hideFramesModeSwitch : ℕ
  mistrustFramesStartup : ℕ
  mistrustFramesModeSwitch : ℕ

/-- The `create` factory: builds a `CamHelperEvdmOOM1` instance, i.e. the
bundle of that class's overrides. -/
def create : CamHelperModel :=
  { gainCode := CamHelperEvdmOOM1.gainCode
    gain := CamHelperEvdmOOM1.gain
    getDelays := CamHelperEvdmOOM1.getDelays
    sensorEmbeddedDataPresent := CamHelperEvdmOOM1.sensorEmbeddedDataPresent
    hideFramesStartup := CamHelperEvdmOOM1.hideFramesStartup
    hideFramesModeSwitch := CamHelperEvdmOOM1.hideFramesModeSwitch
    mistrustFramesStartup := CamHelperEvdmOOM1.mistrustFramesStartup
    mistrustFramesModeSwitch := CamHelperEvdmOOM1.mistrustFramesModeSwitch }

/-- The registration performed by `static RegisterCamHelper reg("evdmoom1",
&create)`: the registry table holds the (identifier, factory result) pair
contributed by this translation unit. -/
def camHelpers : List (String × CamHelperModel) := [("evdmoom1", create)]

/-- Registry lookup by exact identifier match. -/
def findCamHelper (name : String) : Option CamHelperModel :=
  (camHelpers.find? fun p => p.1 == name).map Prod.snd

/-- Claim C7: gainCode truncates gain * 16 toward zero (so gainCode 1.03 is
16, not 17), gain divides the code by 16, and for every nonnegative gain the
round trip gain (gainCode g) is within 1/16 of g.  Nonnegativity is required
because the C++ cast of a negative double to uint32_t is undefined. -/
theorem gainCode_roundtrip :
    CamHelperEvdmOOM1.gainCode (103 / 100) = 16 ∧
    (∀ c : ℕ, CamHelperEvdmOOM1.gain c = (c : ℚ) / 16) ∧
    (∀ g : ℚ, 0 ≤ g →
      |CamHelperEvdmOOM1.gain (CamHelperEvdmOOM1.gainCode g) - g| ≤ 1 / 16) := by
  refine ⟨?_, fun c => rfl, ?_⟩
  · show (⌊(103 / 100 : ℚ) * 16⌋).toNat = 16
    have h16 : ⌊(103 / 100 : ℚ) * 16⌋ = 16 := by
      rw [Int.floor_eq_iff]
      constructor <;> norm_num
    rw [h16]
    rfl
  · intro g hg
    have h0 : (0 : ℤ) ≤ ⌊g * 16⌋ := Int.floor_nonneg.mpr (by positivity)
    have h1 : ((⌊g * 16⌋ : ℤ) : ℚ) ≤ g * 16 := Int.floor_le _
    have h2 : g * 16 < ((⌊g * 16⌋ : ℤ) : ℚ) + 1 := Int.lt_floor_add_one _
    have hc : ((⌊g * 16⌋.toNat : ℕ) : ℚ) = ((⌊g * 16⌋ : ℤ) : ℚ) := by
      exact_mod_cast Int.toNat_of_nonneg h0
    show |(⌊g * 16⌋.toNat : ℚ) / 16 - g| ≤ 1 / 16
    rw [hc, abs_le]
    constructor <;> linarith

/-- Witness for C7's round-trip bound at the concrete gain 3/2. -/
theorem gainCode_roundtrip_witness :
    |CamHelperEvdmOOM1.gain (CamHelperEvdmOOM1.gainCode (3 / 2)) - 3 / 2| ≤ 1 / 16 :=
  gainCode_roundtrip.2.2 (3 / 2) (by norm_num)

/-- Claim C8: the helper registered under "evdmoom1" reports the fixed
per-model constants: delays (2, 2, 2, 2) for exposure, gain, vblank and
hblank, hide and mistrust counts of 2 for both startup and mode switch, and
no sensor-embedded data. -/
theorem evdmoom1_registry_constants :
    findCamHelper "evdmoom1" = some create ∧
    create.getDelays = (2, 2, 2, 2) ∧
    create.sensorEmbeddedDataPresent = false ∧
    create.hideFramesStartup = 2 ∧
    create.hideFramesModeSwitch = 2 ∧
    create.mistrustFramesStartup = 2 ∧
    create.mistrustFramesModeSwitch = 2 := by
  exact ⟨rfl, rfl, rfl, rfl, rfl, rfl, rfl⟩

end RPiController
